import Mathlib

/-!
Verification of the backup script (src/backup.py) against its
natural-language specification.

The development is a shallow embedding of the script's core:
the per-file copy-verify-retry engine (`copy3`, `file_check`, `cal_md5`),
the archive step (`copy_od`, `archive_check`) and the OneDrive flag
resolution in `init`.  The file system is modelled explicitly as a table
of regular files plus directory and unreadable-path sets; the md5 digest
function is an abstract parameter `hex : String → String` (the claims
only compare digests, they never depend on the md5 algorithm itself).
Logging calls are pure side channels and are omitted, except where a
claim is about an observable (the progress values printed by `cal_md5`,
modelled by `md5Loop`).
-/

namespace Backup

/-- Python exceptions that the embedded fragments can raise. -/
inductive PyErr where
  /-- FileCheckError (backup.py line 24). -/
  | fileCheckError
  /-- ArchiveCheckError (backup.py line 19). -/
  | archiveCheckError
  /-- IOError / OSError from opening an unreadable file. -/
  | ioError
  /-- TypeError, e.g. from calling a function with missing required
  positional arguments, or os.path.join(None, ...). -/
  | typeError
  /-- UnboundLocalError: a local variable referenced before assignment. -/
  | unboundLocal
deriving DecidableEq, Repr

/-- File system state: a table of regular files (path, content), the set of
directory paths, and the set of paths that exist as regular files but cannot
be opened for reading. -/
structure FS where
  files : List (String × String)
  dirs : List String
  unreadable : List String
deriving DecidableEq, Repr

/-- Look a path up in the file table (first entry wins, like a mutable map
where updates prepend). -/
def lookupF : List (String × String) → String → Option String
  | [], _ => none
  | (k, v) :: es, p => if k = p then some v else lookupF es p

/-- Content of a regular file, if the path is one (os.path.isfile). -/
def FS.file? (fs : FS) (p : String) : Option String :=
  lookupF fs.files p

/-- os.path.isfile: the path is a regular file. -/
def FS.isfile (fs : FS) (p : String) : Bool :=
  (fs.file? p).isSome

/-- os.path.isdir: the path is a directory. -/
def FS.isdir (fs : FS) (p : String) : Bool :=
  fs.dirs.contains p

/-- os.path.exists: regular file or directory. -/
def pyExists (fs : FS) (p : String) : Bool :=
  fs.isfile p || fs.isdir p

/-- Whether an existing regular file can be opened for reading. -/
def FS.readable (fs : FS) (p : String) : Bool :=
  !(fs.unreadable.contains p)

/-- cal_md5 (backup.py lines 133-153), digest part.  `hex` abstracts
hashlib.md5/hexdigest over the file content.  `if not os.path.isfile(file):
return` yields the absent value None (`Except.ok none`); opening an existing
but unreadable file raises IOError.  The `name` argument of the source is
used only in log lines and is omitted. -/
def cal_md5 (hex : String → String) (fs : FS) (file : String) :
    Except PyErr (Option String) :=
  match fs.file? file with
  | none => Except.ok none
  | some content =>
      if fs.readable file then Except.ok (some (hex content))
      else Except.error PyErr.ioError

/-- file_check (backup.py lines 111-130).  The failure counter `cnt` is a
local variable initialised to 0 on every call (line 113), so the
`cnt > 2` test that would raise FileCheckError is evaluated with cnt = 0;
the `cnt += 1` on line 126 updates a value that dies with the call.  The
filename strings computed on lines 116-118 feed only log messages and are
omitted. -/
def file_check (hex : String → String) (fs : FS) (src dst : String) :
    Except PyErr Bool := do
  let cnt : Nat := 0
  let src_md5 ← cal_md5 hex fs src
  let dst_md5 ← cal_md5 hex fs dst
  if src_md5 ≠ dst_md5 then
    if cnt > 2 then
      Except.error PyErr.fileCheckError
    else
      Except.ok false
  else
    Except.ok true

/-- Modelled from the spec (section 4.2): the decision rule as the spec
states it, MATCH iff the digests are equal and neither is absent; any other
combination, an absent destination digest included, is MISMATCH.  Used only
to compare with `file_check`, which is embedded from the source. -/
def file_check_spec (hex : String → String) (fs : FS) (src dst : String) :
    Except PyErr Bool := do
  let src_md5 ← cal_md5 hex fs src
  let dst_md5 ← cal_md5 hex fs dst
  match src_md5, dst_md5 with
  | some a, some b => Except.ok (decide (a = b))
  | _, _ => Except.ok false

instance {ε α : Type} [DecidableEq ε] [DecidableEq α] :
    DecidableEq (Except ε α) := fun a b =>
  match a, b with
  | Except.error e, Except.error f =>
      if h : e = f then Decidable.isTrue (by rw [h])
      else Decidable.isFalse (by intro hh; cases hh; exact h rfl)
  | Except.ok x, Except.ok y =>
      if h : x = y then Decidable.isTrue (by rw [h])
      else Decidable.isFalse (by intro hh; cases hh; exact h rfl)
  | Except.error _, Except.ok _ => Decidable.isFalse (by intro hh; cases hh)
  | Except.ok _, Except.error _ => Decidable.isFalse (by intro hh; cases hh)

/-- An empty file system: no files, no directories. -/
def fsEmpty : FS := ⟨[], [], []⟩

/-- Source file present with content "x", destination path absent. -/
def fsSrcOnly : FS := ⟨[("s", "x")], [], []⟩

/-- A file that exists but cannot be opened for reading. -/
def fsLocked : FS := ⟨[("f", "c")], [], ["f"]⟩

/-- Claim C2, counterexample: on two paths of which neither is a regular
file, both digests are the absent value, yet `file_check` reports MATCH
(Except.ok true), while the spec's decision rule (`file_check_spec`) demands
MISMATCH because both digests are absent.  So "MATCH iff digests equal and
neither is absent" fails on the code. -/
theorem C2_match_despite_absent_digests :
    file_check id fsEmpty "a" "b" = Except.ok true ∧
    cal_md5 id fsEmpty "b" = Except.ok none ∧
    file_check_spec id fsEmpty "a" "b" = Except.ok false :=
  ⟨rfl, rfl, rfl⟩

/-- Claim C2, amended: `file_check` returns MATCH iff the two digest values
are equal, where the absent value compares equal to itself: equal present
digests give MATCH, two absent digests give MATCH, and an absent destination
digest with a present source digest gives MISMATCH. -/
theorem C2_match_iff_equal_digests (hex : String → String) (fs : FS)
    (src dst : String) (a b : Option String)
    (hs : cal_md5 hex fs src = Except.ok a)
    (hd : cal_md5 hex fs dst = Except.ok b) :
    file_check hex fs src dst = Except.ok (decide (a = b)) := by
  simp only [file_check, bind, Except.bind, hs, hd]
  by_cases h : a = b <;> simp [h]

/-- Witness for C2_match_iff_equal_digests: with the source file present and
the destination absent, the digests differ (some vs none) and the check
reports MISMATCH. -/
theorem C2_match_iff_witness :
    file_check id fsSrcOnly "s" "d" = Except.ok false :=
  C2_match_iff_equal_digests id fsSrcOnly "s" "d" (some "x") none rfl rfl

/-- Claim C7: on a path that does not exist, `cal_md5` returns the
distinguished absent value (Except.ok none), not an error; and whenever
`cal_md5` raises, the error is IOError and the path is a regular file that
exists but cannot be read. -/
theorem C7_hasher_absent_vs_ioerror (hex : String → String) (fs : FS)
    (p : String) :
    (pyExists fs p = false → cal_md5 hex fs p = Except.ok none) ∧
    (∀ e, cal_md5 hex fs p = Except.error e →
      e = PyErr.ioError ∧ fs.isfile p = true ∧ fs.readable p = false) := by
  constructor
  · intro hex0
    have hf : fs.file? p = none := by
      cases hfp : fs.file? p with
      | none => rfl
      | some c =>
          exfalso
          have : fs.isfile p = true := by
            simp [FS.isfile, hfp]
          simp [pyExists, this] at hex0
    simp [cal_md5, hf]
  · intro e he
    cases hfp : fs.file? p with
    | none => simp [cal_md5, hfp] at he
    | some c =>
        by_cases hr : fs.readable p = true
        · simp [cal_md5, hfp, hr] at he
        · simp only [Bool.not_eq_true] at hr
          refine ⟨?_, by simp [FS.isfile, hfp], hr⟩
          simp [cal_md5, hfp, hr] at he
          exact he.symm

/-- Witness for C7_hasher_absent_vs_ioerror: evaluated on a missing path of
the empty file system, and on a locked (existing, unreadable) file. -/
theorem C7_hasher_witness :
    cal_md5 id fsEmpty "missing" = Except.ok none ∧
    (PyErr.ioError = PyErr.ioError ∧ fsLocked.isfile "f" = true ∧
      fsLocked.readable "f" = false) :=
  ⟨(C7_hasher_absent_vs_ioerror id fsEmpty "missing").1 (by decide),
   (C7_hasher_absent_vs_ioerror id fsLocked "f").2 PyErr.ioError rfl⟩

/-- Claim C10: when neither path is a regular file (two missing paths, or
two directories), both digests are the absent value, the absent values
compare equal, and `file_check` returns True (MATCH). -/
theorem C10_both_absent_match (hex : String → String) (fs : FS)
    (src dst : String) (hsrc : fs.isfile src = false)
    (hdst : fs.isfile dst = false) :
    file_check hex fs src dst = Except.ok true := by
  have hs : fs.file? src = none := by
    cases h : fs.file? src with
    | none => rfl
    | some c => simp [FS.isfile, h] at hsrc
  have hd : fs.file? dst = none := by
    cases h : fs.file? dst with
    | none => rfl
    | some c => simp [FS.isfile, h] at hdst
  simp [file_check, cal_md5, hs, hd, bind, Except.bind]

/-- Witness for C10_both_absent_match: two directories of a file system with
no regular files. -/
theorem C10_both_absent_witness :
    file_check id ⟨[], ["p", "q"], []⟩ "p" "q" = Except.ok true :=
  C10_both_absent_match id ⟨[], ["p", "q"], []⟩ "p" "q" (by decide) (by decide)

/-- Outcome of one copy3 invocation: `done fs` models `return dst` with the
resulting file system, `raised e` a propagating exception, `spin` that the
recursion did not return within the available fuel (the source recursion has
no base case of its own, so nontermination is observable only this way). -/
inductive Copy3Out where
  | done (fs : FS)
  | raised (e : PyErr)
  | spin
deriving DecidableEq, Repr

/-- shutil.copy2's effect on the file system: the destination becomes a
regular file holding the source's content.  (When the source is missing or
unreadable the real copy2 raises; in this model the subsequent `file_check`
mismatches or raises instead, so no success path differs.) -/
def copy2 (fs : FS) (src dst : String) : FS :=
  ⟨(dst, (fs.file? src).getD "") :: fs.files, fs.dirs, fs.unreadable⟩

/-- copy3 (backup.py lines 67-98).  `copyOp` abstracts the effect of
shutil.copy2 on the file system, which the program does not control (a
faulty medium may corrupt the destination); `copy2` above is the nominal
effect.  The fuel argument bounds the recursion depth of line 96
(`return copy3(src, dst)`); the source has no bound of its own.  The second
component counts the shutil.copy2 invocations (byte copies).  If the
destination exists, file_check runs first and True skips the copy (lines
71-77); after a copy, a False check restarts the whole function. -/
def copy3 (hex : String → String) (copyOp : FS → String → String → FS) :
    Nat → FS → String → String → Copy3Out × Nat
  | 0, _, _, _ => (Copy3Out.spin, 0)
  | fuel + 1, fs, src, dst =>
    let precheck : Except PyErr Bool :=
      if pyExists fs dst then file_check hex fs src dst else Except.ok false
    match precheck with
    | Except.error e => (Copy3Out.raised e, 0)
    | Except.ok true => (Copy3Out.done fs, 0)
    | Except.ok false =>
      let fs1 := copyOp fs src dst
      match file_check hex fs1 src dst with
      | Except.error e => (Copy3Out.raised e, 1)
      | Except.ok true => (Copy3Out.done fs1, 1)
      | Except.ok false =>
        let r := copy3 hex copyOp fuel fs1 src dst
        (r.1, r.2 + 1)

/-- A copy operation that corrupts the destination on every attempt: no
matter the state, the destination ends up holding "bad" while the source
holds "good". -/
def corruptingCopy : FS → String → String → FS :=
  fun _ _ _ => ⟨[("d", "bad"), ("s", "good")], [], []⟩

/-- Unbounded-retry lemma: if every post-copy state fails the digest check
(and any pre-existing destination fails it too), copy3 consumes all its fuel
performing one copy per recursion level and never raises FileCheckError. -/
theorem copy3_unbounded (hex : String → String)
    (copyOp : FS → String → String → FS) (src dst : String)
    (H : ∀ g : FS, file_check hex (copyOp g src dst) src dst = Except.ok false) :
    ∀ (n : Nat) (fs : FS),
      (pyExists fs dst = true → file_check hex fs src dst = Except.ok false) →
      copy3 hex copyOp n fs src dst = (Copy3Out.spin, n) := by
  intro n
  induction n with
  | zero => intro fs _; rfl
  | succ m ih =>
      intro fs hfs
      have hpre :
          (if pyExists fs dst then file_check hex fs src dst
           else Except.ok false) = Except.ok false := by
        by_cases hp : pyExists fs dst = true
        · simp [hp, hfs hp]
        · simp [Bool.not_eq_true] at hp
          simp [hp]
      have hrec := ih (copyOp fs src dst) (fun _ => H fs)
      simp only [copy3, hpre, H fs, hrec]

/-- Claim C1 (code bug): a destination that is corrupted on every copy
attempt does not stop copy3 after 3 attempts, because the failure counter
`cnt` in file_check is a local variable re-initialised to 0 on every call,
so `cnt > 2` never holds and FileCheckError is never raised.  With fuel 3,
4 and 10 the engine performs 3, 4 and 10 byte copies respectively and is
still retrying (spin), contradicting "exactly 3 copy attempts and then a
fatal FileCheckError, never a 4th attempt". -/
theorem C1_unbounded_retry_no_fatal :
    copy3 id corruptingCopy 3 fsSrcOnly "s" "d" = (Copy3Out.spin, 3) ∧
    copy3 id corruptingCopy 4 fsSrcOnly "s" "d" = (Copy3Out.spin, 4) ∧
    copy3 id corruptingCopy 10 fsSrcOnly "s" "d" = (Copy3Out.spin, 10) := by
  refine ⟨?_, ?_, ?_⟩ <;>
    exact copy3_unbounded id corruptingCopy "s" "d" (fun _ => rfl) _
      fsSrcOnly (fun h => absurd h (by decide))

/-- The skip path of copy3: an existing destination that already passes the
digest check returns immediately with no copy performed. -/
theorem copy3_skip (hex : String → String)
    (copyOp : FS → String → String → FS) (fuel : Nat) (fs : FS)
    (src dst : String) (hex1 : pyExists fs dst = true)
    (hchk : file_check hex fs src dst = Except.ok true) :
    copy3 hex copyOp (fuel + 1) fs src dst = (Copy3Out.done fs, 0) := by
  simp only [copy3, hex1, if_true, hchk]

/-- Claim C3: when the destination already exists and its digest equals the
source digest before copying, copy3 returns right after the digest check
with zero byte-copy operations and the file system unchanged. -/
theorem C3_skip_when_precheck_passes (hex : String → String)
    (copyOp : FS → String → String → FS) (fuel : Nat) (fs : FS)
    (src dst : String) (hex1 : pyExists fs dst = true)
    (hchk : file_check hex fs src dst = Except.ok true) :
    copy3 hex copyOp (fuel + 1) fs src dst = (Copy3Out.done fs, 0) :=
  copy3_skip hex copyOp fuel fs src dst hex1 hchk

/-- A state where the destination already matches the source. -/
def fsMatched : FS := ⟨[("s", "x"), ("d", "x")], [], []⟩

/-- Witness for C3_skip_when_precheck_passes: destination "d" already holds
the source's content, so the copy is elided. -/
theorem C3_skip_witness :
    copy3 id copy2 1 fsMatched "s" "d" = (Copy3Out.done fsMatched, 0) :=
  C3_skip_when_precheck_passes id copy2 0 fsMatched "s" "d" (by decide)
    (by decide)

/-- State of a produced archive file as zipfile sees it: either ZipFile()
raises when opening it, or it opens and testzip() returns the name of the
first bad member (None when every member's checksum is consistent). -/
inductive ZipState where
  | notOpenable
  | opened (testzipResult : Option String)
deriving DecidableEq, Repr

/-- archive_check (backup.py lines 172-188).  The try block assigns
`zip_check = zf.testzip()`; any exception while opening or testing is caught
and logged, but then line 180 reads `zip_check`, which was never assigned on
that path, so Python raises UnboundLocalError.  As in file_check, the
failure counter `cnt` is local and freshly 0, so `cnt > 2` never holds and
ArchiveCheckError is never raised. -/
def archive_check (z : ZipState) : Except PyErr Bool :=
  let zip_check_assigned : Option (Option String) :=
    match z with
    | ZipState.notOpenable => none
    | ZipState.opened r => some r
  match zip_check_assigned with
  | none => Except.error PyErr.unboundLocal
  | some zip_check =>
      if zip_check ≠ none then
        let cnt : Nat := 0
        if cnt > 2 then Except.error PyErr.archiveCheckError
        else Except.ok false
      else Except.ok true

/-- Claim C5 (code bug): archive_check returns CORRUPT (ok false) when
testzip reports a bad member and OK (ok true) when it reports none, but when
the archive cannot be opened it raises UnboundLocalError instead of
returning CORRUPT: the except branch swallows the open failure and line 180
then reads the never-assigned local `zip_check`. -/
theorem C5_archive_check_unbound_local :
    archive_check ZipState.notOpenable = Except.error PyErr.unboundLocal ∧
    archive_check (ZipState.opened (some "member.txt")) = Except.ok false ∧
    archive_check (ZipState.opened none) = Except.ok true :=
  ⟨rfl, rfl, rfl⟩

/-- Environment of the archive step: what shutil.make_archive does for a
given base path, archive type and root directory — either it raises (none;
caught and logged on lines 161-163) or it produces an archive at some path
in some ZipState. -/
structure OdEnv where
  make : String → String → String → Option (String × ZipState)

/-- How a copy_od invocation ends: a normal return or a propagating
exception. -/
inductive OdOut where
  | returned
  | raised (e : PyErr)
deriving DecidableEq, Repr

/-- copy_od (backup.py lines 156-169).  When archive_check reports failure,
line 168 executes `return copy_od(bck_zip)`: the retry does pass the
just-produced archive's path as the new base, but copy_od requires four
positional parameters (od_path, arc_type, root_dir, logger) and the call
supplies only one, so Python raises TypeError at the call site, before any
recursive body runs.  Errors from archive_check itself propagate. -/
def copy_od (env : OdEnv) (od_path arc_type root_dir : String) : OdOut :=
  match env.make od_path arc_type root_dir with
  | none => OdOut.returned
  | some (_bck_zip, z) =>
      match archive_check z with
      | Except.error e => OdOut.raised e
      | Except.ok true => OdOut.returned
      | Except.ok false => OdOut.raised PyErr.typeError

/-- An environment whose make_archive always yields a corrupt archive (one
bad member). -/
def envCorruptArchive : OdEnv :=
  ⟨fun _ _ _ => some ("od.zip", ZipState.opened (some "member.txt"))⟩

/-- Claim C4 (code bug): on a CORRUPT verdict the builder does not recreate
the archive; the retry call `copy_od(bck_zip)` omits three of the four
required positional arguments and raises TypeError, which propagates.  No
second make_archive ever runs. -/
theorem C4_retry_raises_type_error :
    copy_od envCorruptArchive "od" "zip" "root" = OdOut.raised PyErr.typeError :=
  rfl

/-- os.path.join as used on line 228: joining None (an unset environment
variable) with a string raises TypeError. -/
def os_path_join : Option String → String → Except PyErr String
  | none, _ => Except.error PyErr.typeError
  | some a, b => Except.ok (a ++ "\\" ++ b)

/-- Result of the OneDrive section of init: resolved path, possibly-disabled
flag, and whether the skip warning was logged. -/
structure OneDriveRes where
  onedrive_path : String
  onedrive_flag : Bool
  warned : Bool
deriving DecidableEq, Repr

/-- init, OneDrive section (backup.py lines 225-231).  `onedrive_env` is
os.getenv("onedrive"): none when the variable is unset, some s otherwise.
The code tests `onedrive_env != ""`; in Python `None != ""` is True, so an
unset variable takes the join branch and os.path.join(None, BACKUP_NAME)
raises TypeError.  Only the empty string reaches the warn-and-disable
branch. -/
def resolveOnedrive (onedrive_flag : Bool) (onedrive_env : Option String)
    (backup_name : String) : Except PyErr OneDriveRes :=
  if onedrive_flag then
    if onedrive_env ≠ some "" then
      match os_path_join onedrive_env backup_name with
      | Except.error e => Except.error e
      | Except.ok p => Except.ok ⟨p, true, false⟩
    else
      Except.ok ⟨"", false, true⟩
  else
    Except.ok ⟨"", false, false⟩

/-- What a run does after the OneDrive resolution, per main (lines 36-54):
if init raises, main logs the exception and returns before copytree, so
neither the tree copy nor the archive happens; otherwise the tree copy runs
and the archive step runs iff the flag survived. -/
structure MainOut where
  treeCopied : Bool
  archiveAttempted : Bool
  warned : Bool
deriving DecidableEq, Repr

/-- The run outcome as a function of the onedrive flag and environment
variable (assuming the tree copy itself succeeds). -/
def main_onedrive (onedrive_flag : Bool) (onedrive_env : Option String)
    (backup_name : String) : MainOut :=
  match resolveOnedrive onedrive_flag onedrive_env backup_name with
  | Except.error _ => ⟨false, false, false⟩
  | Except.ok r => ⟨true, r.onedrive_flag, r.warned⟩

/-- Claim C6 (code bug): with the onedrive flag set, an EMPTY environment
variable is handled as the claim says (flag disabled, warning logged, tree
copy proceeds, no archive), but an UNSET variable is not: os.getenv returns
None, `None != ""` is True, and os.path.join(None, BACKUP_NAME) raises
TypeError, so init fails and the whole run aborts before the tree copy, with
no warning. -/
theorem C6_unset_env_aborts_run :
    main_onedrive true none "Backup-2026-10-12" =
      ⟨false, false, false⟩ ∧
    main_onedrive true (some "") "Backup-2026-10-12" =
      ⟨true, false, true⟩ :=
  ⟨rfl, rfl⟩

/-- The progress side channel of cal_md5's read loop (backup.py lines
140-149), as the list of values printed after each chunk, as fractions of
the file size (the source prints them ×100 with a percent sign).  `r` is
the number of bytes still unread, `s` the running counter of the source
(which grows by exactly 65536 per chunk, line 148, regardless of how many
bytes the final `f.read(65536)` actually returned), `n` the file size. -/
def md5Loop (r s n : Nat) : List ℚ :=
  if h : r = 0 then []
  else
    ((s + 65536 : ℕ) : ℚ) / (n : ℚ) ::
      md5Loop (r - min r 65536) (s + 65536) n
termination_by r
decreasing_by omega

/-- Progress values reported while hashing a file of `n` bytes. -/
def md5Progress (n : Nat) : List ℚ :=
  md5Loop n 0 n

/-- Number of chunks the loop reads for a file of `n` bytes:
the 65536-byte ceiling division. -/
def numChunks (n : Nat) : Nat :=
  (n + 65535) / 65536

/-- Modelled from the spec (section 4.1): actual bytes read after chunk
`i` (0-based) of a file of `n` bytes. -/
def bytesRead (n i : Nat) : Nat :=
  min ((i + 1) * 65536) n

/-- Modelled from the spec (section 4.1): the progress values the spec says
are reported, `bytes_read / file_size` after every chunk.  Used only to
compare with `md5Progress`, which is embedded from the source. -/
def md5ProgressSpec (n : Nat) : List ℚ :=
  (List.range (numChunks n)).map fun i => ((bytesRead n i : ℕ) : ℚ) / (n : ℚ)

/-- Evaluation of the read loop on a 1-byte file: one chunk is read, and the
value reported is 65536/1, because the byte counter grows by a full 65536
for the short final chunk. -/
theorem md5Progress_one : md5Progress 1 = [(65536 : ℚ)] := by
  unfold md5Progress
  rw [md5Loop]
  norm_num
  rw [md5Loop]
  simp

/-- Claim C8, counterexample: for a 1-byte file the single reported value is
65536 (the counter overshoots the short final chunk), not
bytes_read / file_size = 1; in particular the final reported value exceeds
1 for a file whose size is not a multiple of 65536. -/
theorem C8_progress_overshoots :
    md5Progress 1 ≠ md5ProgressSpec 1 := by
  rw [md5Progress_one]
  have h2 : md5ProgressSpec 1 = [(1 : ℚ)] := by
    have hn : numChunks 1 = 1 := by norm_num [numChunks]
    have hb : bytesRead 1 0 = 1 := by decide
    unfold md5ProgressSpec
    rw [hn, show List.range 1 = [0] from rfl]
    simp [hb]
  rw [h2]
  intro h
  simp only [List.cons.injEq, and_true] at h
  norm_num at h

/-- Closed form of the read loop: the value reported after the i-th chunk
(0-based) is (s + (i+1)·65536) / n, independent of how short the final
chunk is. -/
theorem md5Loop_closed (n : Nat) :
    ∀ r s, md5Loop r s n =
      (List.range (numChunks r)).map
        (fun i => ((s + (i + 1) * 65536 : ℕ) : ℚ) / (n : ℚ)) := by
  intro r
  induction r using Nat.strong_induction_on with
  | _ r ih =>
    intro s
    by_cases h : r = 0
    · subst h
      rw [md5Loop]
      simp [numChunks]
    · rw [md5Loop, dif_neg h]
      have hlt : r - min r 65536 < r := by omega
      rw [ih _ hlt (s + 65536)]
      have hnc : numChunks r = numChunks (r - min r 65536) + 1 := by
        unfold numChunks
        omega
      rw [hnc, List.range_succ_eq_map]
      simp only [List.map_cons, List.map_map]
      refine List.cons_eq_cons.mpr ⟨by norm_num, ?_⟩
      refine List.map_congr_left ?_
      intro a _
      simp only [Function.comp_apply]
      push_cast
      ring

/-- Claim C8, amended: the loop does read in fixed 65536-byte chunks, but
the value reported after the i-th chunk (0-based) is ((i+1)·65536) / n, not
bytes_read / n: the counter adds a full 65536 even for a short final chunk,
so for a file whose size is not a multiple of 65536 the final value exceeds
1. -/
theorem C8_progress_values (n : Nat) :
    md5Progress n =
      (List.range (numChunks n)).map
        (fun i => (((i + 1) * 65536 : ℕ) : ℚ) / (n : ℚ)) := by
  unfold md5Progress
  rw [md5Loop_closed]
  simp

/-- Witness for C8_progress_values at n = 1. -/
theorem C8_progress_values_witness :
    md5Progress 1 =
      (List.range (numChunks 1)).map
        (fun i => (((i + 1) * 65536 : ℕ) : ℚ) / (1 : ℚ)) := by
  have h := C8_progress_values 1
  simpa using h

/-- TreeReplicator, per-file part: shutil.copytree with
copy_function=copy3 (backup.py line 52) invokes copy3 once per regular file
the walk yields, in order.  The list holds (source, destination) pairs; the
second component accumulates the number of byte-copy operations.  The run
fails (none) if a copy3 raises or exhausts its fuel. -/
def runBackup (hex : String → String) (fuel : Nat) :
    FS → List (String × String) → Option FS × Nat
  | fs, [] => (some fs, 0)
  | fs, t :: ts =>
    match copy3 hex copy2 fuel fs t.1 t.2 with
    | (Copy3Out.done fs1, k) =>
      match runBackup hex fuel fs1 ts with
      | (r, m) => (r, k + m)
    | (Copy3Out.raised _, k) => (none, k)
    | (Copy3Out.spin, k) => (none, k)

/-- Destinations are fresh along the walk: no later task's destination
collides with an earlier task's source or destination.  shutil.copytree
guarantees this: destinations are the distinct paths of the mirrored tree,
disjoint from the source tree. -/
def dstsFresh (tasks : List (String × String)) : Prop :=
  List.Pairwise (fun a b => b.2 ≠ a.1 ∧ b.2 ≠ a.2) tasks

/-- fs1 evolves from fs writing only paths in w: directories and the
unreadable set are unchanged and the file table is unchanged off w. -/
def EvolveOff (fs fs1 : FS) (w : List String) : Prop :=
  fs1.dirs = fs.dirs ∧ fs1.unreadable = fs.unreadable ∧
    ∀ p, p ∉ w → fs1.file? p = fs.file? p

theorem copy2_file_ne (fs : FS) (src dst p : String) (h : p ≠ dst) :
    (copy2 fs src dst).file? p = fs.file? p := by
  have hne : dst ≠ p := fun hh => h hh.symm
  simp [copy2, FS.file?, lookupF, hne]

theorem copy2_file_dst (fs : FS) (src dst : String) :
    (copy2 fs src dst).file? dst = some ((fs.file? src).getD "") := by
  simp [copy2, FS.file?, lookupF]

theorem copy2_pyExists_dst (fs : FS) (src dst : String) :
    pyExists (copy2 fs src dst) dst = true := by
  simp [pyExists, FS.isfile, copy2_file_dst]

theorem copy2_evolve (fs : FS) (src dst : String) :
    EvolveOff fs (copy2 fs src dst) [dst] := by
  refine ⟨rfl, rfl, ?_⟩
  intro p hp
  exact copy2_file_ne fs src dst p (by simpa using hp)

theorem evolveOff_refl (fs : FS) (w : List String) : EvolveOff fs fs w :=
  ⟨rfl, rfl, fun _ _ => rfl⟩

theorem evolveOff_same (fs fs1 : FS) (w : List String)
    (h1 : EvolveOff fs fs1 w) : ∀ w1, (∀ p, p ∉ w1 → p ∉ w) →
    EvolveOff fs fs1 w1 := by
  obtain ⟨ha, hb, hc⟩ := h1
  intro w1 hw
  exact ⟨ha, hb, fun p hp => hc p (hw p hp)⟩

theorem evolveOff_cons (fs fsA fs1 : FS) (d : String) (w : List String)
    (h1 : EvolveOff fs fsA [d]) (h2 : EvolveOff fsA fs1 w) :
    EvolveOff fs fs1 (d :: w) := by
  obtain ⟨ha, hb, hc⟩ := h1
  obtain ⟨hd, he, hf⟩ := h2
  refine ⟨hd.trans ha, he.trans hb, ?_⟩
  intro p hp
  simp only [List.mem_cons] at hp
  push_neg at hp
  rw [hf p hp.2, hc p (by simp [hp.1])]

theorem cal_md5_congr (hex : String → String) (fs fs1 : FS) (p : String)
    (hf : fs1.file? p = fs.file? p) (hu : fs1.unreadable = fs.unreadable) :
    cal_md5 hex fs1 p = cal_md5 hex fs p := by
  unfold cal_md5 FS.readable
  rw [hf, hu]

theorem file_check_congr (hex : String → String) (fs fs1 : FS)
    (src dst : String)
    (hs : fs1.file? src = fs.file? src) (hd : fs1.file? dst = fs.file? dst)
    (hu : fs1.unreadable = fs.unreadable) :
    file_check hex fs1 src dst = file_check hex fs src dst := by
  unfold file_check
  rw [cal_md5_congr hex fs fs1 src hs hu, cal_md5_congr hex fs fs1 dst hd hu]

theorem pyExists_congr (fs fs1 : FS) (p : String)
    (hf : fs1.file? p = fs.file? p) (hdir : fs1.dirs = fs.dirs) :
    pyExists fs1 p = pyExists fs p := by
  unfold pyExists FS.isfile FS.isdir
  rw [hf, hdir]

theorem invariant_transport (hex : String → String) (fsA fs1 : FS)
    (w : List String) (he : EvolveOff fsA fs1 w) (s d : String)
    (hsw : s ∉ w) (hdw : d ∉ w)
    (hpe : pyExists fsA d = true)
    (hck : file_check hex fsA s d = Except.ok true) :
    pyExists fs1 d = true ∧ file_check hex fs1 s d = Except.ok true := by
  obtain ⟨hdir, hu, hfile⟩ := he
  constructor
  · rw [pyExists_congr fsA fs1 d (hfile d hdw) hdir]
    exact hpe
  · rw [file_check_congr hex fsA fs1 s d (hfile s hsw) (hfile d hdw) hu]
    exact hck

/-- A successful copy3 has touched the file table only at its destination. -/
theorem copy3_evolve (hex : String → String) :
    ∀ (fuel : Nat) (fs fs1 : FS) (src dst : String) (k : Nat),
      copy3 hex copy2 fuel fs src dst = (Copy3Out.done fs1, k) →
      EvolveOff fs fs1 [dst] := by
  intro fuel
  induction fuel with
  | zero =>
      intro fs fs1 src dst k h
      exact absurd h (by simp [copy3])
  | succ m ih =>
      intro fs fs1 src dst k h
      simp only [copy3] at h
      cases hpre : (if pyExists fs dst then file_check hex fs src dst
          else Except.ok false) with
      | error e => rw [hpre] at h; simp at h
      | ok b =>
          rw [hpre] at h
          cases b with
          | true =>
              simp at h
              rw [← h.1]
              exact evolveOff_refl fs [dst]
          | false =>
              simp only [] at h
              cases hchk : file_check hex (copy2 fs src dst) src dst with
              | error e => rw [hchk] at h; simp at h
              | ok b2 =>
                  rw [hchk] at h
                  cases b2 with
                  | true =>
                      simp at h
                      rw [← h.1]
                      exact evolveOff_same _ _ _
                        (copy2_evolve fs src dst) [dst] (fun _ hp => hp)
                  | false =>
                      simp only [] at h
                      rcases hrec : copy3 hex copy2 m (copy2 fs src dst)
                          src dst with ⟨out, c⟩
                      rw [hrec] at h
                      simp at h
                      obtain ⟨hout, _⟩ := h
                      have hstep := ih (copy2 fs src dst) fs1 src dst c
                        (by rw [hrec, hout])
                      exact evolveOff_same _ _ _
                        (evolveOff_cons fs (copy2 fs src dst) fs1 dst [dst]
                          (copy2_evolve fs src dst) hstep)
                        [dst] (fun p hp => by simpa using hp)

/-- After a successful copy3 the destination exists and passes the digest
check. -/
theorem copy3_post (hex : String → String) :
    ∀ (fuel : Nat) (fs fs1 : FS) (src dst : String) (k : Nat),
      copy3 hex copy2 fuel fs src dst = (Copy3Out.done fs1, k) →
      pyExists fs1 dst = true ∧
        file_check hex fs1 src dst = Except.ok true := by
  intro fuel
  induction fuel with
  | zero =>
      intro fs fs1 src dst k h
      exact absurd h (by simp [copy3])
  | succ m ih =>
      intro fs fs1 src dst k h
      simp only [copy3] at h
      by_cases hpy : pyExists fs dst = true
      · rw [hpy] at h
        simp only [if_true] at h
        cases hpre : file_check hex fs src dst with
        | error e => rw [hpre] at h; simp at h
        | ok b =>
            rw [hpre] at h
            cases b with
            | true =>
                simp at h
                rw [← h.1]
                exact ⟨hpy, hpre⟩
            | false =>
                simp only [] at h
                cases hchk : file_check hex (copy2 fs src dst) src dst with
                | error e => rw [hchk] at h; simp at h
                | ok b2 =>
                    rw [hchk] at h
                    cases b2 with
                    | true =>
                        simp at h
                        rw [← h.1]
                        exact ⟨copy2_pyExists_dst fs src dst, hchk⟩
                    | false =>
                        simp only [] at h
                        rcases hrec : copy3 hex copy2 m (copy2 fs src dst)
                            src dst with ⟨out, c⟩
                        rw [hrec] at h
                        simp at h
                        obtain ⟨hout, _⟩ := h
                        exact ih (copy2 fs src dst) fs1 src dst c
                          (by rw [hrec, hout])
      · rw [Bool.not_eq_true] at hpy
        rw [hpy] at h
        simp only [if_false, Bool.false_eq_true] at h
        cases hchk : file_check hex (copy2 fs src dst) src dst with
        | error e => rw [hchk] at h; simp at h
        | ok b2 =>
            rw [hchk] at h
            cases b2 with
            | true =>
                simp at h
                rw [← h.1]
                exact ⟨copy2_pyExists_dst fs src dst, hchk⟩
            | false =>
                simp only [] at h
                rcases hrec : copy3 hex copy2 m (copy2 fs src dst)
                    src dst with ⟨out, c⟩
                rw [hrec] at h
                simp at h
                obtain ⟨hout, _⟩ := h
                exact ih (copy2 fs src dst) fs1 src dst c
                  (by rw [hrec, hout])

/-- After a successful run, the file table changed only at the destinations
and every task's destination exists and passes the digest check. -/
theorem run_post (hex : String → String) (fuel : Nat) :
    ∀ (tasks : List (String × String)) (fs fs1 : FS) (n : Nat),
      dstsFresh tasks →
      runBackup hex fuel fs tasks = (some fs1, n) →
      EvolveOff fs fs1 (tasks.map Prod.snd) ∧
        ∀ u ∈ tasks, pyExists fs1 u.2 = true ∧
          file_check hex fs1 u.1 u.2 = Except.ok true := by
  intro tasks
  induction tasks with
  | nil =>
      intro fs fs1 n _ h
      simp only [runBackup, Prod.mk.injEq] at h
      obtain ⟨ha, _⟩ := h
      injection ha with ha
      subst ha
      exact ⟨evolveOff_refl fs [], by simp⟩
  | cons t ts ih =>
      intro fs fs1 n hfresh h
      obtain ⟨hft, hfts⟩ := List.pairwise_cons.mp hfresh
      simp only [runBackup] at h
      rcases hc : copy3 hex copy2 fuel fs t.1 t.2 with ⟨out, k⟩
      rw [hc] at h
      cases out with
      | raised e => simp at h
      | spin => simp at h
      | done fsA =>
          have h2 : ((runBackup hex fuel fsA ts).1,
              k + (runBackup hex fuel fsA ts).2) = (some fs1, n) := h
          rcases hr : runBackup hex fuel fsA ts with ⟨r, m⟩
          rw [hr] at h2
          simp only [Prod.mk.injEq] at h2
          obtain ⟨hrr, _⟩ := h2
          subst hrr
          have ihA := ih fsA fs1 m hfts hr
          have hevA : EvolveOff fs fsA [t.2] :=
            copy3_evolve hex fuel fs fsA t.1 t.2 k hc
          have hpostA := copy3_post hex fuel fs fsA t.1 t.2 k hc
          have hs1 : t.1 ∉ ts.map Prod.snd := by
            intro hmem
            obtain ⟨b, hb, hbe⟩ := List.mem_map.mp hmem
            exact (hft b hb).1 hbe
          have hs2 : t.2 ∉ ts.map Prod.snd := by
            intro hmem
            obtain ⟨b, hb, hbe⟩ := List.mem_map.mp hmem
            exact (hft b hb).2 hbe
          constructor
          · exact evolveOff_cons fs fsA fs1 t.2 (ts.map Prod.snd) hevA ihA.1
          · intro u hu
            rcases List.mem_cons.mp hu with hu1 | hu2
            · subst hu1
              exact invariant_transport hex fsA fs1 (ts.map Prod.snd) ihA.1
                u.1 u.2 hs1 hs2 hpostA.1 hpostA.2
            · exact ihA.2 u hu2

/-- A run over tasks whose destinations all already pass the digest check
skips every file: the state is unchanged and zero byte copies happen. -/
theorem run_skip (hex : String → String) (fuel : Nat) :
    ∀ (tasks : List (String × String)) (fs : FS),
      (∀ u ∈ tasks, pyExists fs u.2 = true ∧
        file_check hex fs u.1 u.2 = Except.ok true) →
      runBackup hex (fuel + 1) fs tasks = (some fs, 0) := by
  intro tasks
  induction tasks with
  | nil => intro fs _; rfl
  | cons t ts ih =>
      intro fs hall
      have ht := hall t (List.mem_cons_self t ts)
      have hskip := copy3_skip hex copy2 fuel fs t.1 t.2 ht.1 ht.2
      simp only [runBackup, hskip, ih fs (fun u hu => hall u (List.mem_cons_of_mem t hu))]

/-- Claim C9: running the backup a second time in destination-exists mode,
against a source and destination unchanged since a successful first run,
performs zero additional byte-copy operations (every file hits the skip
branch).  dstsFresh states what copytree guarantees: destination paths are
distinct and disjoint from source paths. -/
theorem C9_second_run_no_copies (hex : String → String) (fuel : Nat)
    (fs fs1 : FS) (tasks : List (String × String)) (n : Nat)
    (hfresh : dstsFresh tasks)
    (h1 : runBackup hex fuel fs tasks = (some fs1, n)) :
    runBackup hex fuel fs1 tasks = (some fs1, 0) := by
  cases tasks with
  | nil => rfl
  | cons t ts =>
      cases fuel with
      | zero =>
          exfalso
          simp only [runBackup] at h1
          have : copy3 hex copy2 0 fs t.1 t.2 = (Copy3Out.spin, 0) := rfl
          rw [this] at h1
          simp at h1
      | succ m =>
          have hpost := (run_post hex (m + 1) (t :: ts) fs fs1 n hfresh h1).2
          exact run_skip hex m (t :: ts) fs1 hpost

/-- The state after the first run of the witness backup: the destination
holds a copy of the source file. -/
def fsAfterRun : FS := ⟨[("d", "x"), ("s", "x")], [], []⟩

/-- Witness for C9_second_run_no_copies: one task, source "s" with content
"x"; the first run copies once, the second run copies nothing. -/
theorem C9_second_run_witness :
    runBackup id 1 fsAfterRun [("s", "d")] = (some fsAfterRun, 0) :=
  C9_second_run_no_copies id 1 fsSrcOnly fsAfterRun [("s", "d")] 1
    (by simp [dstsFresh]) (by decide)

end Backup
